import Mathlib

/-!
Shallow embedding of the mobile-mcp device automation layer, together with
theorems checking the natural-language specification against it.

Conventions used throughout:
- TypeScript numbers that only ever hold non-negative integers (screen
  dimensions, parsed pixel bounds) are modelled as `Nat`; caller-supplied
  coordinates and distances, which may be negative, are modelled as `Int`.
- `Math.floor(h * 0.80)` and friends are modelled as `h * 80 / 100` with
  Nat floor division.  For the constants 0.2, 0.3, 0.5 and 0.8 the IEEE
  double product rounds to a value whose floor agrees with the rational
  floor for all screen-sized inputs, so the integer model is exact.
- JavaScript `undefined` for an optional attribute or field is modelled as
  `Option.none`; the JS idiom `a || b` on strings and numbers is modelled
  explicitly (empty string and zero are falsy).
- Side-effecting calls (shell commands, TCP probes) are modelled by
  returning an explicit trace of effects next to the result, and fallible
  operations return `Except Err`.
-/

/-- The two error kinds of the error model: `ActionableError` carries a
remediation hint; everything else is unexpected. -/
inductive Err where
  | actionable (msg : String) : Err
  | unexpected (msg : String) : Err
deriving DecidableEq, Repr

/-- Swipe directions accepted by the capability contract. -/
inductive SwipeDirection where
  | up | down | left | right
deriving DecidableEq, Repr

/-! ### Gesture geometry (AndroidRobot.swipe, AndroidRobot.swipeFromCoordinate) -/

/-- `AndroidRobot.swipe`: center-based swipe endpoint computation.
`w`, `h` are the screen width and height from `getScreenSize`.
Returns `((x0, y0), (x1, y1))`, the start and end points passed to
`adb shell input swipe`.  `centerX` is `screenSize.width >> 1`;
`Math.floor(height * 0.80)` is `h * 80 / 100`, and so on. -/
def androidSwipe (w h : Nat) : SwipeDirection → (Nat × Nat) × (Nat × Nat)
  | .up => ((w / 2, h * 80 / 100), (w / 2, h * 20 / 100))
  | .down => ((w / 2, h * 20 / 100), (w / 2, h * 80 / 100))
  | .left => ((w * 80 / 100, h * 50 / 100), (w * 20 / 100, h * 50 / 100))
  | .right => ((w * 20 / 100, h * 50 / 100), (w * 80 / 100, h * 50 / 100))

/-- The JS expression `distance || defaultDistance`: `undefined` and `0`
are falsy and fall back to the default, any other number is kept. -/
def effectiveDistance (distance : Option Int) (dflt : Int) : Int :=
  match distance with
  | none => dflt
  | some d => if d = 0 then dflt else d

/-- `AndroidRobot.swipeFromCoordinate`: coordinate-based swipe endpoint
computation.  `w`, `h` are the screen dimensions; `x`, `y` the caller's
start point; `distance` the optional caller-supplied distance.
The defaults are `Math.floor(height * 0.3)` and `Math.floor(width * 0.3)`,
and the moving coordinate is clamped with `Math.max(0, _)` when moving
toward the origin and `Math.min(dimension, _)` when moving away. -/
def swipeFromCoordinate (w h : Nat) (x y : Int) (direction : SwipeDirection)
    (distance : Option Int) : (Int × Int) × (Int × Int) :=
  let defaultDistanceY : Int := (h * 30 / 100 : Nat)
  let defaultDistanceX : Int := (w * 30 / 100 : Nat)
  let swipeDistanceY := effectiveDistance distance defaultDistanceY
  let swipeDistanceX := effectiveDistance distance defaultDistanceX
  match direction with
  | .up => ((x, y), (x, max 0 (y - swipeDistanceY)))
  | .down => ((x, y), (x, min (h : Int) (y + swipeDistanceY)))
  | .left => ((x, y), (max 0 (x - swipeDistanceX), y))
  | .right => ((x, y), (min (w : Int) (x + swipeDistanceX), y))

/-! ### C4: center-based swipe geometry -/

/-- C4 (counterexample): the claim asserts that for ALL positive screen
dimensions the computed start and end points are distinct, but at
width 1080, height 1, direction up, both `Math.floor(1 * 0.80)` and
`Math.floor(1 * 0.20)` are 0, so the swipe is zero-length. -/
theorem c4_counterexample :
    0 < 1080 ∧ 0 < 1 ∧
    (androidSwipe 1080 1 .up).1 = (androidSwipe 1080 1 .up).2 := by
  decide

/-- C4 (amended): for all positive screen dimensions and all four
directions, the computed start and end points lie within
[0, width] × [0, height]; they are distinct whenever the dimension along
the axis of motion is at least 2 (height for up/down, width for
left/right); and at width 1080, height 1920, direction up the start is
(540, 1536) and the end is (540, 384). -/
theorem c4_centerSwipe_bounds (w h : Nat) (d : SwipeDirection)
    (hw : 0 < w) (hh : 0 < h) :
    ((androidSwipe w h d).1.1 ≤ w ∧ (androidSwipe w h d).1.2 ≤ h ∧
      (androidSwipe w h d).2.1 ≤ w ∧ (androidSwipe w h d).2.2 ≤ h) ∧
    ((d = .up ∨ d = .down) → 2 ≤ h →
      (androidSwipe w h d).1 ≠ (androidSwipe w h d).2) ∧
    ((d = .left ∨ d = .right) → 2 ≤ w →
      (androidSwipe w h d).1 ≠ (androidSwipe w h d).2) ∧
    androidSwipe 1080 1920 .up = ((540, 1536), (540, 384)) := by
  cases d <;>
    refine ⟨⟨?_, ?_, ?_, ?_⟩, ?_, ?_, by decide⟩ <;>
      simp only [androidSwipe, Prod.mk.injEq, ne_eq, not_and] <;>
        first
          | omega
          | (intro hd h2; omega)
          | (rintro (hd | hd) <;> simp_all)

/-- Witness for `c4_centerSwipe_bounds` at width 1080, height 1920,
direction up. -/
theorem c4_centerSwipe_bounds_witness :
    0 < 1080 ∧ 0 < 1920 ∧
    (((androidSwipe 1080 1920 .up).1.1 ≤ 1080 ∧
        (androidSwipe 1080 1920 .up).1.2 ≤ 1920 ∧
        (androidSwipe 1080 1920 .up).2.1 ≤ 1080 ∧
        (androidSwipe 1080 1920 .up).2.2 ≤ 1920) ∧
      ((SwipeDirection.up = .up ∨ SwipeDirection.up = .down) → 2 ≤ 1920 →
        (androidSwipe 1080 1920 .up).1 ≠ (androidSwipe 1080 1920 .up).2) ∧
      ((SwipeDirection.up = .left ∨ SwipeDirection.up = .right) → 2 ≤ 1080 →
        (androidSwipe 1080 1920 .up).1 ≠ (androidSwipe 1080 1920 .up).2) ∧
      androidSwipe 1080 1920 .up = ((540, 1536), (540, 384))) :=
  ⟨by decide, by decide,
    c4_centerSwipe_bounds 1080 1920 .up (by decide) (by decide)⟩

/-! ### C5: coordinate-based swipe -/

/-- C5 (counterexample): the claim asserts the end point equals the start
point offset by the caller-supplied distance (clamped).  With a supplied
distance of 0 the offset-and-clamp would leave the start point unchanged,
but the JS expression `distance || defaultDistance` treats 0 as absent:
at screen 1080 × 1920, start (100, 500), direction up, distance 0, the
code ends at (100, 0) (offset by the 576-pixel default), not (100, 500). -/
theorem c5_counterexample :
    (swipeFromCoordinate 1080 1920 100 500 .up (some 0)).2 ≠
      (100, min (1920 : Int) (max 0 (500 - 0))) ∧
    (swipeFromCoordinate 1080 1920 100 500 .up (some 0)).2 = (100, 0) := by
  decide

/-- C5 (amended): for a start point within the screen and a supplied
distance that is positive (a supplied distance of 0 is treated as absent
by the `||` idiom and falls back to the default of 30% of the relevant
screen dimension), the end point equals the start point offset by the
effective distance in the requested direction with the moving coordinate
clamped to [0, dimension], and both end coordinates stay within the
screen. -/
theorem c5_swipeFromCoordinate_clamped (w h : Nat) (x y : Int)
    (d : SwipeDirection) (dist : Option Int)
    (hx0 : 0 ≤ x) (hxw : x ≤ (w : Int)) (hy0 : 0 ≤ y) (hyh : y ≤ (h : Int))
    (hpos : ∀ dd, dist = some dd → 0 < dd) :
    (swipeFromCoordinate w h x y d dist).1 = (x, y) ∧
    0 ≤ (swipeFromCoordinate w h x y d dist).2.1 ∧
    (swipeFromCoordinate w h x y d dist).2.1 ≤ (w : Int) ∧
    0 ≤ (swipeFromCoordinate w h x y d dist).2.2 ∧
    (swipeFromCoordinate w h x y d dist).2.2 ≤ (h : Int) ∧
    (d = .up → (swipeFromCoordinate w h x y d dist).2 =
      (x, min (h : Int) (max 0 (y - effectiveDistance dist ((h * 30 / 100 : Nat) : Int))))) ∧
    (d = .down → (swipeFromCoordinate w h x y d dist).2 =
      (x, min (h : Int) (max 0 (y + effectiveDistance dist ((h * 30 / 100 : Nat) : Int))))) ∧
    (d = .left → (swipeFromCoordinate w h x y d dist).2 =
      (min (w : Int) (max 0 (x - effectiveDistance dist ((w * 30 / 100 : Nat) : Int))), y)) ∧
    (d = .right → (swipeFromCoordinate w h x y d dist).2 =
      (min (w : Int) (max 0 (x + effectiveDistance dist ((w * 30 / 100 : Nat) : Int))), y)) := by
  have hDy : 0 ≤ effectiveDistance dist ((h * 30 / 100 : Nat) : Int) := by
    cases dist with
    | none => exact Int.natCast_nonneg _
    | some dd =>
        have hdd := hpos dd rfl
        simp only [effectiveDistance]
        split
        · exact Int.natCast_nonneg _
        · omega
  have hDx : 0 ≤ effectiveDistance dist ((w * 30 / 100 : Nat) : Int) := by
    cases dist with
    | none => exact Int.natCast_nonneg _
    | some dd =>
        have hdd := hpos dd rfl
        simp only [effectiveDistance]
        split
        · exact Int.natCast_nonneg _
        · omega
  cases d <;>
    simp only [swipeFromCoordinate, Prod.mk.injEq, reduceCtorEq,
      false_implies, true_implies, and_true, true_and] <;>
    refine ⟨?_, ?_, ?_, ?_, ?_⟩ <;> omega

/-- Witness for `c5_swipeFromCoordinate_clamped` at screen 1080 × 1920,
start (540, 960), direction up, supplied distance 100. -/
theorem c5_swipeFromCoordinate_clamped_witness :
    (0 ≤ (540 : Int) ∧ (540 : Int) ≤ (1080 : Nat) ∧
      0 ≤ (960 : Int) ∧ (960 : Int) ≤ (1920 : Nat) ∧
      ∀ dd, (some (100 : Int)) = some dd → 0 < dd) ∧
    (swipeFromCoordinate 1080 1920 540 960 .up (some 100)).1 = (540, 960) ∧
    (swipeFromCoordinate 1080 1920 540 960 .up (some 100)).2 =
      (540, min ((1920 : Nat) : Int)
        (max 0 (960 - effectiveDistance (some 100) ((1920 * 30 / 100 : Nat) : Int)))) := by
  have hpos : ∀ dd, (some (100 : Int)) = some dd → 0 < dd := by
    intro dd hdd
    cases hdd
    decide
  have hmain := c5_swipeFromCoordinate_clamped 1080 1920 540 960 .up (some 100)
    (by decide) (by decide) (by decide) (by decide) hpos
  exact ⟨⟨by decide, by decide, by decide, by decide, hpos⟩,
    hmain.1, hmain.2.2.2.2.2.1 rfl⟩

/-! ### String helpers (kernel-computable models of the JS string operations) -/

/-- Split a string at every occurrence of a separator character
(JS `raw.split("\n")` with a one-character separator). -/
def chSplit (sep : Char) (s : String) : List String :=
  (s.data.splitOn sep).map List.asString

/-- JS `String.prototype.trim`: strip leading and trailing whitespace. -/
def jsTrim (s : String) : String :=
  ⟨((s.data.dropWhile Char.isWhitespace).reverse.dropWhile Char.isWhitespace).reverse⟩

/-- The suffix of `s` starting at the first occurrence of `pat`, if any
(the character-level core of JS `indexOf` / `includes` / `substring`). -/
def strTakeFromFirst (pat : List Char) : List Char → Option (List Char)
  | [] => none
  | c :: rest =>
    if pat.isPrefixOf (c :: rest) then some (c :: rest)
    else strTakeFromFirst pat rest

/-! ### Android device classification
(AndroidRobot.getSystemFeatures, AndroidDeviceManager.getDeviceType) -/

/-- `AndroidRobot.getSystemFeatures`: parse the raw stdout of
`adb shell pm list features` — split on newlines, trim each line, keep the
lines starting with `feature:` and strip that marker. -/
def getSystemFeatures (raw : String) : List String :=
  (((chSplit '\n' raw).map jsTrim).filter
      (fun line => "feature:".data.isPrefixOf line.data)).map
    (fun line => (⟨line.data.drop "feature:".length⟩ : String))

/-- `AndroidDeviceManager.getDeviceType`, applied to the feature list the
device reports: `"tv"` when the list includes `android.software.leanback`
or `android.hardware.type.television`, `"mobile"` otherwise. -/
def getDeviceType (features : List String) : String :=
  if features.contains "android.software.leanback" ||
      features.contains "android.hardware.type.television" then "tv"
  else "mobile"

/-- C3 (counterexample): a feature list containing
`android.software.leanback` but not `android.hardware.type.television` is
classified `"tv"`, whereas the claim requires `"mobile"` for every list
not containing the television feature. -/
theorem c3_counterexample :
    getDeviceType ["android.software.leanback"] = "tv" ∧
    "android.hardware.type.television" ∉ ["android.software.leanback"] := by
  decide

/-- C3 (amended): classification yields `"tv"` exactly when the feature
list contains `android.software.leanback` OR
`android.hardware.type.television`, and `"mobile"` exactly otherwise. -/
theorem c3_deviceType_tv_iff (features : List String) :
    (getDeviceType features = "tv" ↔
      "android.software.leanback" ∈ features ∨
        "android.hardware.type.television" ∈ features) ∧
    (getDeviceType features = "mobile" ↔
      ¬("android.software.leanback" ∈ features ∨
          "android.hardware.type.television" ∈ features)) := by
  have h2 : ("mobile" : String) ≠ "tv" := by decide
  have h3 : ("tv" : String) ≠ "mobile" := by decide
  simp only [getDeviceType]
  by_cases hc : "android.software.leanback" ∈ features ∨
      "android.hardware.type.television" ∈ features
  · rw [if_pos (by simpa using hc)]
    simp [hc, h3]
  · rw [if_neg (by simpa using hc)]
    simp [hc, h2]

/-! ### UI hierarchy flattening (AndroidRobot.collectElements) -/

/-- Normalized element rectangle.  `width`/`height` are `Int` because the
source computes `right - left` / `bottom - top`, which can be negative. -/
structure ScreenElementRect where
  x : Int
  y : Int
  width : Int
  height : Int
deriving DecidableEq, Repr

/-- Normalized screen element as constructed by the Android backend.
Optional JS fields (`undefined` when never assigned, or assigned the
value `undefined`) are modelled as `Option`. -/
structure ScreenElement where
  type : String
  text : Option String
  label : String
  identifier : Option String
  focused : Option Bool
  rect : ScreenElementRect
deriving DecidableEq, Repr

/-- A parsed UI-dump node (`UiAutomatorXmlNode`): child nodes plus the
optional attributes the flattener reads.  The parser yields a single
object or an array for `node.node`; both are modelled as a list. -/
inductive UiNode where
  | mk (children : List UiNode) (className text bounds hint focusedAttr
      contentDesc resourceId : Option String)

def UiNode.children : UiNode → List UiNode
  | .mk c _ _ _ _ _ _ _ => c

def UiNode.className : UiNode → Option String
  | .mk _ v _ _ _ _ _ _ => v

def UiNode.text : UiNode → Option String
  | .mk _ _ v _ _ _ _ _ => v

def UiNode.bounds : UiNode → Option String
  | .mk _ _ _ v _ _ _ _ => v

def UiNode.hint : UiNode → Option String
  | .mk _ _ _ _ v _ _ _ => v

def UiNode.focusedAttr : UiNode → Option String
  | .mk _ _ _ _ _ v _ _ => v

def UiNode.contentDesc : UiNode → Option String
  | .mk _ _ _ _ _ _ v _ => v

def UiNode.resourceId : UiNode → Option String
  | .mk _ _ _ _ _ _ _ v => v

/-- JS truthiness of an optional string: `undefined` and `""` are falsy. -/
def truthy : Option String → Bool
  | none => false
  | some s => s != ""

/-- JS `a || b` on an optional string with a string default. -/
def truthyOr (a : Option String) (b : String) : String :=
  match a with
  | none => b
  | some s => if s = "" then b else s

/-- Read a leading run of decimal digits (at least one). -/
def readNat (cs : List Char) : Option (Nat × List Char) :=
  let ds := cs.takeWhile Char.isDigit
  if ds.isEmpty then none
  else some (ds.foldl (fun acc c => 10 * acc + (c.toNat - 48)) 0, cs.drop ds.length)

/-- Consume one expected character. -/
def expectChar (c : Char) : List Char → Option (List Char)
  | [] => none
  | x :: xs => if x = c then some xs else none

/-- The regex `^\[(\d+),(\d+)\]\[(\d+),(\d+)\]$` applied to a bounds
string, returning the four captured numbers `(left, top, right, bottom)`
on a match. -/
def parseBounds (s : String) : Option (Nat × Nat × Nat × Nat) := do
  let cs ← expectChar '[' s.data
  let (l, cs) ← readNat cs
  let cs ← expectChar ',' cs
  let (t, cs) ← readNat cs
  let cs ← expectChar ']' cs
  let cs ← expectChar '[' cs
  let (r, cs) ← readNat cs
  let cs ← expectChar ',' cs
  let (b, cs) ← readNat cs
  let cs ← expectChar ']' cs
  if cs.isEmpty then pure (l, t, r, b) else none

/-- `AndroidRobot.getScreenElementRect`: parse `String(node.bounds)` with
the bounds regex and build the rect.  When the regex does not match (or
`bounds` is `undefined`, stringified to `"undefined"`), the JS code
destructures an empty array and every rect field is `NaN`; since every
comparison against `NaN` is false, such a rect can never pass the
positive-area guard, which we model by returning `none`. -/
def getScreenElementRect (bounds : Option String) : Option ScreenElementRect :=
  match parseBounds (match bounds with | some s => s | none => "undefined") with
  | some (l, t, r, b) => some ⟨l, t, (r : Int) - l, (b : Int) - t⟩
  | none => none

/-- The element object built for a content-bearing node in
`AndroidRobot.collectElements`: `type` is `node.class || "text"`, `label`
is `node["content-desc"] || node.hint || ""`, `focused` is emitted only
when the attribute is literally `"true"`, and `identifier` is assigned
from `resource-id` unless the attribute equals `""` (an absent attribute
is `undefined`, which passes the `!== null` test but assigns
`undefined`, i.e. `none`). -/
def mkScreenElement (n : UiNode) (rect : ScreenElementRect) : ScreenElement :=
  { type := truthyOr n.className "text"
    text := n.text
    label := truthyOr n.contentDesc (truthyOr n.hint "")
    identifier := if n.resourceId = some "" then none else n.resourceId
    focused := if n.focusedAttr = some "true" then some true else none
    rect := rect }

/-- The per-node contribution of `AndroidRobot.collectElements`: a node is
emitted only when it carries text, content-description or hint content,
its bounds parse, and the parsed rect has positive width and height. -/
def nodeElement (n : UiNode) : List ScreenElement :=
  if truthy n.text || truthy n.contentDesc || truthy n.hint then
    match getScreenElementRect n.bounds with
    | some r =>
        if 0 < r.width ∧ 0 < r.height then [mkScreenElement n r] else []
    | none => []
  else []

/-- `AndroidRobot.collectElements`: depth-first traversal collecting the
children's elements first, then the node's own contribution. -/
def collectElements : UiNode → List ScreenElement
  | n@(.mk children _ _ _ _ _ _ _) => go children ++ nodeElement n
where go : List UiNode → List ScreenElement
  | [] => []
  | c :: cs => collectElements c ++ go cs

/-- Every element contributed by a single node passed the positive-area
guard. -/
theorem mem_nodeElement_posArea (n : UiNode) (e : ScreenElement)
    (he : e ∈ nodeElement n) : 0 < e.rect.width ∧ 0 < e.rect.height := by
  unfold nodeElement at he
  split at he
  · split at he
    · rename_i r hr
      split at he
      · rename_i hpos
        rcases List.mem_singleton.mp he with rfl
        simpa [mkScreenElement] using hpos
      · simp at he
    · simp at he
  · simp at he

/-- C6: every element in the flattened output of the UI hierarchy has a
rectangle of strictly positive width and strictly positive height; nodes
whose parsed bounds give zero or negative width or height (or whose
bounds do not parse) never appear, regardless of other attributes. -/
theorem c6_collectElements_positive_area (t : UiNode) (e : ScreenElement)
    (he : e ∈ collectElements t) : 0 < e.rect.width ∧ 0 < e.rect.height := by
  refine collectElements.induct
    (fun l => ∀ e ∈ collectElements.go l, 0 < e.rect.width ∧ 0 < e.rect.height)
    (fun n => ∀ e ∈ collectElements n, 0 < e.rect.width ∧ 0 < e.rect.height)
    ?_ ?_ ?_ t e he
  · intro children a1 a2 a3 a4 a5 a6 a7 ih e' he'
    simp only [collectElements] at he'
    rcases List.mem_append.mp he' with h | h
    · exact ih e' h
    · exact mem_nodeElement_posArea _ e' h
  · intro e' he'
    simp [collectElements.go] at he'
  · intro c cs ihc ihcs e' he'
    simp only [collectElements.go] at he'
    rcases List.mem_append.mp he' with h | h
    · exact ihc e' h
    · exact ihcs e' h

/-- Witness for `c6_collectElements_positive_area`: a one-child hierarchy
whose child has text `"hello"` and bounds `"[0,0][100,50]"`. -/
theorem c6_collectElements_positive_area_witness :
    (⟨"text", some "hello", "", none, none, ⟨0, 0, 100, 50⟩⟩ : ScreenElement) ∈
      collectElements (UiNode.mk
        [UiNode.mk [] none (some "hello") (some "[0,0][100,50]") none none none none]
        none none none none none none none) ∧
    (0 < (⟨"text", some "hello", "", none, none,
        (⟨0, 0, 100, 50⟩ : ScreenElementRect)⟩ : ScreenElement).rect.width ∧
      0 < (⟨"text", some "hello", "", none, none,
        (⟨0, 0, 100, 50⟩ : ScreenElementRect)⟩ : ScreenElement).rect.height) := by
  have hm : (⟨"text", some "hello", "", none, none,
      ⟨0, 0, 100, 50⟩⟩ : ScreenElement) ∈
      collectElements (UiNode.mk
        [UiNode.mk [] none (some "hello") (some "[0,0][100,50]") none none none none]
        none none none none none none none) := by decide
  exact ⟨hm, c6_collectElements_positive_area _ _ hm⟩

/-- C7: the emitted element's `identifier` is some string exactly when the
source node's `resource-id` attribute is present with that non-empty
value; an absent or empty `resource-id` yields no identifier. -/
theorem c7_identifier_from_resource_id (n : UiNode) (r : ScreenElementRect) :
    (∀ s, (mkScreenElement n r).identifier = some s ↔
      n.resourceId = some s ∧ s ≠ "") ∧
    ((mkScreenElement n r).identifier = none ↔
      n.resourceId = none ∨ n.resourceId = some "") := by
  cases hrid : n.resourceId with
  | none => simp [mkScreenElement, hrid]
  | some v =>
      by_cases hv : v = ""
      · subst hv
        simp [mkScreenElement, hrid]
      · have hid : (mkScreenElement n r).identifier = some v := by
          simp [mkScreenElement, hrid, hv]
        rw [hid]
        constructor
        · intro s
          constructor
          · intro hs
            injection hs with h
            subst h
            exact ⟨rfl, hv⟩
          · rintro ⟨hs, -⟩
            exact hs
        · simp [hrid, hv]

/-! ### iOS physical-device readiness (IosRobot) -/

/-- JS `parseInt(s, 10)`: skip leading whitespace, read an optional sign
and then at least one decimal digit (trailing characters are ignored);
`NaN` (no digits) is modelled as `none`. -/
def jsParseInt (s : String) : Option Int :=
  let cs := s.data.dropWhile Char.isWhitespace
  let signAndRest : Int × List Char :=
    match cs with
    | '-' :: rest => (-1, rest)
    | '+' :: rest => (1, rest)
    | _ => (1, cs)
  match readNat signAndRest.2 with
  | some (n, _) => some (signAndRest.1 * n)
  | none => none

/-- `IosRobot.isTunnelRequired`, decision part:
`parseInt(version.split(".")[0], 10) >= 17`; a `NaN` comparison is
false. -/
def tunnelRequiredPure (version : String) : Bool :=
  match jsParseInt ((chSplit '.' version).headD "") with
  | some m => 17 ≤ m
  | none => false

/-- Backend calls issued by an `IosRobot` operation, in order. -/
inductive IosEff where
  | versionQuery
  | portProbe (port : Nat)
  | goIosCmd (args : List String)
  | wdaRequest
deriving DecidableEq, Repr

/-- The externally-determined device/host state an `IosRobot` call sees.
The robot instance itself stores only the device id, so this is the only
input to an operation. -/
structure IosEnv where
  productVersion : String
  tunnelPortOpen : Bool
  wdaPortOpen : Bool
  wdaAgentRunning : Bool
deriving DecidableEq, Repr

/-- `IosRobot.getIosVersion`: one `ios info` call returning
`ProductVersion`. -/
def getIosVersion (env : IosEnv) : String × List IosEff :=
  (env.productVersion, [.versionQuery])

/-- `IosRobot.isTunnelRequired`: queries the version (one backend call,
every time it is invoked — the class has no cache field) and compares the
major part with 17. -/
def isTunnelRequired (env : IosEnv) : Bool × List IosEff :=
  let vq := getIosVersion env
  (tunnelRequiredPure vq.1, vq.2)

/-- The `ActionableError` message raised when the tunnel port is closed. -/
def tunnelErrMsg : String :=
  "iOS tunnel is not running, please see https://github.com/mobile-next/mobile-mcp/wiki/"

/-- `IosRobot.assertTunnelRunning`: when the version requires a tunnel,
probe the fixed local tunnel port once (TCP connect, immediate
resolution) and raise an `ActionableError` if it is closed; otherwise do
nothing beyond the version query. -/
def assertTunnelRunning (env : IosEnv) : Except Err Unit × List IosEff :=
  let rq := isTunnelRequired env
  if rq.1 then
    if env.tunnelPortOpen then (.ok (), rq.2 ++ [.portProbe 60105])
    else (.error (.actionable tunnelErrMsg), rq.2 ++ [.portProbe 60105])
  else (.ok (), rq.2)

/-- `IosRobot.wda`: assert the tunnel, then probe the WebDriverAgent
forward port, then query agent liveness. -/
def wdaReady (env : IosEnv) : Except Err Unit × List IosEff :=
  let ar := assertTunnelRunning env
  match ar.1 with
  | .error e => (.error e, ar.2)
  | .ok () =>
    if !env.wdaPortOpen then
      (.error (.actionable "Port forwarding to WebDriverAgent is not running (tunnel okay), please see https://github.com/mobile-next/mobile-mcp/wiki/"),
        ar.2 ++ [.portProbe 8100])
    else if !env.wdaAgentRunning then
      (.error (.actionable "WebDriverAgent is not running on device (tunnel okay, port forwarding okay), please see https://github.com/mobile-next/mobile-mcp/wiki/"),
        ar.2 ++ [.portProbe 8100, .wdaRequest])
    else (.ok (), ar.2 ++ [.portProbe 8100, .wdaRequest])

/-- A representative set of `IosRobot` contract operations: the go-ios
driven ones begin with `assertTunnelRunning`, the agent-driven ones begin
with `wda()` (which itself begins with `assertTunnelRunning`). -/
inductive IosOp where
  | launchApp (pkg : String)
  | terminateApp (pkg : String)
  | uninstallApp (bundleId : String)
  | listApps
  | tap (x y : Int)
  | getScreenshot
deriving DecidableEq, Repr

/-- Run the tunnel assertion, then on success issue the given go-ios
commands. -/
def afterAssert (env : IosEnv) (cmds : List IosEff) :
    Except Err Unit × List IosEff :=
  let ar := assertTunnelRunning env
  match ar.1 with
  | .ok () => (.ok (), ar.2 ++ cmds)
  | .error e => (.error e, ar.2)

/-- Run the full agent readiness chain, then on success issue the actual
agent request. -/
def afterWda (env : IosEnv) : Except Err Unit × List IosEff :=
  let wr := wdaReady env
  match wr.1 with
  | .ok () => (.ok (), wr.2 ++ [.wdaRequest])
  | .error e => (.error e, wr.2)

/-- One `IosRobot` contract operation and the backend calls it issues. -/
def runOp (env : IosEnv) : IosOp → Except Err Unit × List IosEff
  | .launchApp pkg => afterAssert env [.goIosCmd ["launch", pkg]]
  | .terminateApp pkg => afterAssert env [.goIosCmd ["kill", pkg]]
  | .uninstallApp bundleId => afterAssert env [.goIosCmd ["uninstall", bundleId]]
  | .listApps => afterAssert env [.goIosCmd ["apps", "--all", "--list"]]
  | .tap _ _ => afterWda env
  | .getScreenshot => afterWda env

/-- A sequence of contract operations against the same `IosRobot`
instance: the class keeps no per-session state beyond the device id, so
the combined backend-call trace is the concatenation of the per-operation
traces, whether or not an operation fails. -/
def runOps (env : IosEnv) : List IosOp → List IosEff
  | [] => []
  | op :: rest => (runOp env op).2 ++ runOps env rest

/-- Every invocation of the tunnel assertion issues exactly one version
query. -/
theorem assert_one_versionQuery (env : IosEnv) :
    ((assertTunnelRunning env).2).count IosEff.versionQuery = 1 := by
  cases htp : env.tunnelPortOpen <;>
    cases hrq : tunnelRequiredPure env.productVersion <;>
      simp only [assertTunnelRunning, isTunnelRequired, getIosVersion, htp,
        hrq] <;>
        decide

/-- Every invocation of the agent readiness chain issues exactly one
version query. -/
theorem wda_one_versionQuery (env : IosEnv) :
    ((wdaReady env).2).count IosEff.versionQuery = 1 := by
  have h := assert_one_versionQuery env
  rcases ha : assertTunnelRunning env with ⟨r, t⟩
  rw [ha] at h
  have ht : t.count IosEff.versionQuery = 1 := h
  have h1 : List.count IosEff.versionQuery [IosEff.portProbe 8100] = 0 := by
    decide
  have h2 : List.count IosEff.versionQuery
      [IosEff.portProbe 8100, IosEff.wdaRequest] = 0 := by decide
  cases r with
  | error e => simp [wdaReady, ha, ht]
  | ok u =>
      cases u
      cases hp : env.wdaPortOpen <;> cases hw : env.wdaAgentRunning <;>
        simp [wdaReady, ha, hp, hw, List.count_append, ht, h1, h2]

/-- After the tunnel assertion, commands that are not version queries do
not change the version-query count. -/
theorem afterAssert_one_versionQuery (env : IosEnv) (cmds : List IosEff)
    (hc : cmds.count IosEff.versionQuery = 0) :
    ((afterAssert env cmds).2).count IosEff.versionQuery = 1 := by
  have h := assert_one_versionQuery env
  rcases ha : assertTunnelRunning env with ⟨r, t⟩
  rw [ha] at h
  have ht : t.count IosEff.versionQuery = 1 := h
  cases r with
  | error e => simp [afterAssert, ha, ht]
  | ok u =>
      cases u
      simp [afterAssert, ha, List.count_append, ht, hc]

/-- The agent-driven operation wrapper issues exactly one version query. -/
theorem afterWda_one_versionQuery (env : IosEnv) :
    ((afterWda env).2).count IosEff.versionQuery = 1 := by
  have h := wda_one_versionQuery env
  rcases hw : wdaReady env with ⟨r, t⟩
  rw [hw] at h
  have ht : t.count IosEff.versionQuery = 1 := h
  have h0 : List.count IosEff.versionQuery [IosEff.wdaRequest] = 0 := by
    decide
  cases r with
  | error e => simp [afterWda, hw, ht]
  | ok u =>
      cases u
      simp [afterWda, hw, List.count_append, ht, h0]

/-- Every contract operation issues exactly one version query. -/
theorem runOp_one_versionQuery (env : IosEnv) (op : IosOp) :
    ((runOp env op).2).count IosEff.versionQuery = 1 := by
  cases op <;>
    first
      | exact afterAssert_one_versionQuery env _
          (List.count_eq_zero.mpr (by simp))
      | exact afterWda_one_versionQuery env

/-- C1 (counterexample): `IosRobot` has no cache field for the
tunnel-requirement fact — `isTunnelRequired` calls `getIosVersion` on
every invocation.  Two consecutive contract operations on the same
instance (here two go-ios driven operations against an iOS 17 device with
the tunnel up) issue two device version queries, refuting "at most once
per session". -/
theorem c1_counterexample :
    ¬ ((runOps ⟨"17.0", true, true, true⟩
        [.launchApp "com.example.app", .terminateApp "com.example.app"]).count
          IosEff.versionQuery ≤ 1) := by
  decide

/-- C1 (amended): the tunnel-requirement fact is recomputed on every
contract operation — each operation on an `IosRobot` instance issues
exactly one device version query, so a sequence of n operations issues
exactly n version queries; nothing is cached across operations. -/
theorem c1_versionQuery_per_operation (env : IosEnv) (ops : List IosOp) :
    (runOps env ops).count IosEff.versionQuery = ops.length := by
  induction ops with
  | nil => simp [runOps]
  | cons op rest ih =>
      rw [runOps, List.count_append, runOp_one_versionQuery, ih,
        List.length_cons]
      omega

/-- C2: when the reported OS version has major part 16, the tunnel port
probe is skipped entirely and the assertion succeeds (no tunnel error can
arise); when the major part is at least 17 and the tunnel port is closed,
the assertion fails with an `ActionableError` whose message references
the tunnel, after exactly one probe (no retry). -/
theorem c2_tunnel_skip_or_actionable (env : IosEnv) :
    (jsParseInt ((chSplit '.' env.productVersion).headD "") = some 16 →
      assertTunnelRunning env = (.ok (), [IosEff.versionQuery])) ∧
    (∀ m, jsParseInt ((chSplit '.' env.productVersion).headD "") = some m →
      17 ≤ m → env.tunnelPortOpen = false →
      assertTunnelRunning env =
        (.error (.actionable tunnelErrMsg),
          [IosEff.versionQuery, IosEff.portProbe 60105])) ∧
    (∃ pre post, tunnelErrMsg = pre ++ "tunnel" ++ post) := by
  refine ⟨?_, ?_, ?_⟩
  · intro h16
    have hreq : tunnelRequiredPure env.productVersion = false := by
      unfold tunnelRequiredPure
      rw [h16]
      decide
    simp [assertTunnelRunning, isTunnelRequired, getIosVersion, hreq]
  · intro m hm h17 hclosed
    have hreq : tunnelRequiredPure env.productVersion = true := by
      unfold tunnelRequiredPure
      rw [hm]
      simpa using h17
    simp [assertTunnelRunning, isTunnelRequired, getIosVersion, hreq, hclosed]
  · exact ⟨"iOS ",
      " is not running, please see https://github.com/mobile-next/mobile-mcp/wiki/",
      by decide⟩

/-- Witness for `c2_tunnel_skip_or_actionable`: version "16.4" skips the
probe (even with every port closed); version "17.0" with the tunnel port
closed fails with the tunnel error after one probe. -/
theorem c2_tunnel_skip_or_actionable_witness :
    (jsParseInt ((chSplit '.' ("16.4" : String)).headD "") = some 16 ∧
      assertTunnelRunning ⟨"16.4", false, false, false⟩ =
        (.ok (), [IosEff.versionQuery])) ∧
    (jsParseInt ((chSplit '.' ("17.0" : String)).headD "") = some 17 ∧
      (17 : Int) ≤ 17 ∧
      assertTunnelRunning ⟨"17.0", false, true, true⟩ =
        (.error (.actionable tunnelErrMsg),
          [IosEff.versionQuery, IosEff.portProbe 60105])) :=
  ⟨⟨by decide,
      (c2_tunnel_skip_or_actionable ⟨"16.4", false, false, false⟩).1 (by decide)⟩,
    ⟨by decide, by decide,
      (c2_tunnel_skip_or_actionable ⟨"17.0", false, true, true⟩).2.1 17
        (by decide) (by decide) rfl⟩⟩

/-! ### UI dump bounded retry (AndroidRobot.getUiAutomatorDump) -/

/-- JS `s.includes(pat)` (for non-empty `pat`). -/
def containsSubstring (s pat : String) : Bool :=
  (strTakeFromFirst pat.data s.data).isSome

/-- The transient error marker the dump tool can emit instead of XML. -/
def nullRootMarker : String := "null root node returned by UiTestAutomationBridge"

/-- `dump.substring(dump.indexOf("<?xml"))`: the suffix starting at the
first occurrence of `<?xml`; when absent, `indexOf` is -1 and
`substring(-1)` is the whole string. -/
def xmlFrom (dump : String) : String :=
  match strTakeFromFirst "<?xml".data dump.data with
  | some suffix => ⟨suffix⟩
  | none => dump

/-- The retry loop of `AndroidRobot.getUiAutomatorDump`, parametrized by
the stream of dump-tool outputs (`dumps i` is the stdout of the i-th
`adb exec-out uiautomator dump /dev/tty` invocation), the next attempt
index and the remaining attempts.  On success it returns the processed
dump together with the number of attempts made. -/
def getUiAutomatorDumpFrom (dumps : Nat → String) :
    Nat → Nat → Except Err (String × Nat)
  | _, 0 => .error (.actionable "Failed to get UIAutomator XML")
  | i, remaining + 1 =>
    let dump := dumps i
    if containsSubstring dump nullRootMarker then
      getUiAutomatorDumpFrom dumps (i + 1) remaining
    else
      .ok (xmlFrom dump, i + 1)

/-- `AndroidRobot.getUiAutomatorDump`: up to 10 attempts. -/
def getUiAutomatorDump (dumps : Nat → String) : Except Err (String × Nat) :=
  getUiAutomatorDumpFrom dumps 0 10

/-- A successful dump uses at most `start + remaining` attempts. -/
theorem dumpFrom_ok_bound (dumps : Nat → String) (i r : Nat)
    (s : String) (n : Nat) :
    getUiAutomatorDumpFrom dumps i r = .ok (s, n) → n ≤ i + r := by
  induction r generalizing i with
  | zero => simp [getUiAutomatorDumpFrom]
  | succ r ih =>
      intro h
      by_cases hc : containsSubstring (dumps i) nullRootMarker = true
      · simp only [getUiAutomatorDumpFrom, hc, if_true] at h
        have := ih (i + 1) h
        omega
      · simp only [getUiAutomatorDumpFrom, hc, if_false,
          Bool.false_eq_true] at h
        rcases h with ⟨h1, h2⟩
        omega

/-- The first marker-free attempt ends the loop immediately and its
processed output is returned. -/
theorem dumpFrom_success (dumps : Nat → String) (r i k : Nat) (hk : k < r)
    (hall : ∀ j, j < k →
      containsSubstring (dumps (i + j)) nullRootMarker = true)
    (hfree : containsSubstring (dumps (i + k)) nullRootMarker = false) :
    getUiAutomatorDumpFrom dumps i r =
      .ok (xmlFrom (dumps (i + k)), i + k + 1) := by
  induction k generalizing i r with
  | zero =>
      cases r with
      | zero => omega
      | succ r =>
          simp only [Nat.add_zero] at hfree
          simp [getUiAutomatorDumpFrom, hfree]
  | succ k ih =>
      cases r with
      | zero => omega
      | succ r =>
          have h0 : containsSubstring (dumps i) nullRootMarker = true := by
            simpa using hall 0 (by omega)
          simp only [getUiAutomatorDumpFrom, h0, if_true]
          have hall' : ∀ j, j < k →
              containsSubstring (dumps (i + 1 + j)) nullRootMarker = true := by
            intro j hj
            have := hall (j + 1) (by omega)
            rw [show i + 1 + j = i + (j + 1) from by omega]
            exact this
          have hfree' :
              containsSubstring (dumps (i + 1 + k)) nullRootMarker = false := by
            rw [show i + 1 + k = i + (k + 1) from by omega]
            exact hfree
          have := ih r (i + 1) (by omega) hall' hfree'
          rw [this, show i + 1 + k = i + (k + 1) from by omega]

/-- When every attempt returns the marker, the loop exhausts its attempts
and fails. -/
theorem dumpFrom_allFail (dumps : Nat → String) (r i : Nat)
    (hall : ∀ j, j < r →
      containsSubstring (dumps (i + j)) nullRootMarker = true) :
    getUiAutomatorDumpFrom dumps i r =
      .error (.actionable "Failed to get UIAutomator XML") := by
  induction r generalizing i with
  | zero => simp [getUiAutomatorDumpFrom]
  | succ r ih =>
      have h0 : containsSubstring (dumps i) nullRootMarker = true := by
        simpa using hall 0 (by omega)
      simp only [getUiAutomatorDumpFrom, h0, if_true]
      refine ih (i + 1) (fun j hj => ?_)
      have := hall (j + 1) (by omega)
      rw [show i + 1 + j = i + (j + 1) from by omega]
      exact this

/-- C8: the UI dump fetch performs at most 10 attempts; an attempt whose
output contains the transient marker is retried; the first attempt
without the marker ends the loop immediately and its processed output is
returned; and when all 10 attempts return the marker the operation raises
an `ActionableError` instead of looping further. -/
theorem c8_uiDump_bounded_retry (dumps : Nat → String) :
    (∀ s n, getUiAutomatorDump dumps = .ok (s, n) → n ≤ 10) ∧
    (∀ i, i < 10 →
      (∀ j, j < i → containsSubstring (dumps j) nullRootMarker = true) →
      containsSubstring (dumps i) nullRootMarker = false →
      getUiAutomatorDump dumps = .ok (xmlFrom (dumps i), i + 1)) ∧
    ((∀ j, j < 10 → containsSubstring (dumps j) nullRootMarker = true) →
      getUiAutomatorDump dumps =
        .error (.actionable "Failed to get UIAutomator XML")) := by
  refine ⟨?_, ?_, ?_⟩
  · intro s n h
    have := dumpFrom_ok_bound dumps 0 10 s n h
    omega
  · intro i hi hall hfree
    have := dumpFrom_success dumps 10 0 i hi
      (fun j hj => by simpa using hall j hj) (by simpa using hfree)
    simpa [getUiAutomatorDump] using this
  · intro hall
    exact dumpFrom_allFail dumps 10 0 (fun j hj => by simpa using hall j hj)

/-- Witness for `c8_uiDump_bounded_retry`: the first attempt returns the
marker, the second returns XML with a junk prefix; the loop succeeds on
attempt 2 with the suffix starting at the XML declaration. -/
theorem c8_uiDump_bounded_retry_witness :
    (1 < 10 ∧
      (∀ j, j < 1 → containsSubstring
        ((fun i => if i = 0 then "ERROR: null root node returned by UiTestAutomationBridge"
          else "junk<?xml version") j) nullRootMarker = true) ∧
      containsSubstring
        ((fun i => if i = 0 then "ERROR: null root node returned by UiTestAutomationBridge"
          else "junk<?xml version") 1) nullRootMarker = false) ∧
    getUiAutomatorDump
        (fun i => if i = 0 then "ERROR: null root node returned by UiTestAutomationBridge"
          else "junk<?xml version") =
      .ok (xmlFrom ((fun i => if i = 0 then "ERROR: null root node returned by UiTestAutomationBridge"
          else "junk<?xml version") 1), 2) := by
  have hall : ∀ j, j < 1 → containsSubstring
      ((fun i => if i = 0 then "ERROR: null root node returned by UiTestAutomationBridge"
        else "junk<?xml version") j) nullRootMarker = true := by
    intro j hj
    have hj0 : j = 0 := by omega
    subst hj0
    decide
  have hfree : containsSubstring
      ((fun i => if i = 0 then "ERROR: null root node returned by UiTestAutomationBridge"
        else "junk<?xml version") 1) nullRootMarker = false := by decide
  exact ⟨⟨by decide, hall, hfree⟩,
    (c8_uiDump_bounded_retry _).2.1 1 (by decide) hall hfree⟩

/-! ### Screenshot pipeline (server.ts, mobile_take_screenshot) -/

/-- The observable steps of the screenshot pipeline, in order:
decode the PNG header (`new PNG(screenshot).getDimensions()`), probe for
the optional native image-processing capability
(`isImageMagickInstalled()`), and the resize/re-encode
(`image.resize(...).jpeg({quality: 75}).toBuffer()`). -/
inductive ScreenshotStep where
  | decodeHeader
  | magickProbe
  | resizeEncode
deriving DecidableEq, Repr

/-- The `mobile_take_screenshot` pipeline after capture, parametrized by
the dimensions the decoded PNG header declares and by whether ImageMagick
is installed.  Returns the mime type of the delivered image and the trace
of pipeline steps.  A declared width or height of 0 fails the dimension
check (`pngSize.width <= 0 || pngSize.height <= 0`) with an
`ActionableError` before the capability probe runs. -/
def takeScreenshotPipeline (pngW pngH : Nat) (magickInstalled : Bool) :
    Except Err String × List ScreenshotStep :=
  if pngW ≤ 0 ∨ pngH ≤ 0 then
    (.error (.actionable "Screenshot is invalid. Please try again."),
      [.decodeHeader])
  else if magickInstalled then
    (.ok "image/jpeg", [.decodeHeader, .magickProbe, .resizeEncode])
  else
    (.ok "image/png", [.decodeHeader, .magickProbe])

/-- C9: a captured buffer whose decoded header declares width 0 or
height 0 is rejected with an `ActionableError` before the optional
transcode is attempted — the trace stops at the header decode and
contains neither the ImageMagick availability probe nor a
resize/re-encode, whatever the probe would have answered. -/
theorem c9_zero_dims_rejected (pngW pngH : Nat) (magick : Bool)
    (h : pngW = 0 ∨ pngH = 0) :
    (takeScreenshotPipeline pngW pngH magick).1 =
      .error (.actionable "Screenshot is invalid. Please try again.") ∧
    (takeScreenshotPipeline pngW pngH magick).2 =
      [ScreenshotStep.decodeHeader] ∧
    ScreenshotStep.magickProbe ∉ (takeScreenshotPipeline pngW pngH magick).2 ∧
    ScreenshotStep.resizeEncode ∉ (takeScreenshotPipeline pngW pngH magick).2 := by
  have hcond : pngW ≤ 0 ∨ pngH ≤ 0 := by omega
  rw [takeScreenshotPipeline, if_pos hcond]
  refine ⟨rfl, rfl, ?_, ?_⟩ <;> decide

/-- Witness for `c9_zero_dims_rejected` at declared dimensions 0 × 100
with ImageMagick installed. -/
theorem c9_zero_dims_rejected_witness :
    ((0 : Nat) = 0 ∨ (100 : Nat) = 0) ∧
    ((takeScreenshotPipeline 0 100 true).1 =
        .error (.actionable "Screenshot is invalid. Please try again.") ∧
      (takeScreenshotPipeline 0 100 true).2 = [ScreenshotStep.decodeHeader] ∧
      ScreenshotStep.magickProbe ∉ (takeScreenshotPipeline 0 100 true).2 ∧
      ScreenshotStep.resizeEncode ∉ (takeScreenshotPipeline 0 100 true).2) :=
  ⟨Or.inl rfl, c9_zero_dims_rejected 0 100 true (Or.inl rfl)⟩

/-! ### Android text input (AndroidRobot.sendKeys) -/

/-- The regex `^[\x00-\x7F]*$`: every character is ASCII. -/
def isAscii (text : String) : Bool :=
  text.data.all (fun c => c.toNat ≤ 0x7F)

/-- `text.replace(/ /g, "\\ ")`: escape spaces for `adb shell input
text`. -/
def escapeSpaces (s : String) : String :=
  ⟨(s.data.map (fun c => if c = ' ' then ['\\', ' '] else [c])).flatten⟩

/-- UTF-8 bytes of one scalar value. -/
def utf8Bytes (c : Char) : List Nat :=
  let n := c.toNat
  if n < 0x80 then [n]
  else if n < 0x800 then [0xC0 + n / 64, 0x80 + n % 64]
  else if n < 0x10000 then
    [0xE0 + n / 4096, 0x80 + n / 64 % 64, 0x80 + n % 64]
  else
    [0xF0 + n / 262144, 0x80 + n / 4096 % 64, 0x80 + n / 64 % 64,
      0x80 + n % 64]

/-- UTF-8 bytes of a string (`Buffer.from(text)`). -/
def strUtf8 (s : String) : List Nat :=
  (s.data.map utf8Bytes).flatten

/-- The standard base64 alphabet. -/
def base64Alphabet : List Char :=
  "ABCDEFGHIJKLMNOPQRSTUVWXYZabcdefghijklmnopqrstuvwxyz0123456789+/".data

/-- One base64 digit. -/
def base64Digit (n : Nat) : Char :=
  base64Alphabet.getD n 'A'

/-- Base64 of a byte list (`buffer.toString("base64")`). -/
def base64Encode : List Nat → List Char
  | [] => []
  | [b1] => [base64Digit (b1 / 4), base64Digit (b1 % 4 * 16), '=', '=']
  | [b1, b2] => [base64Digit (b1 / 4), base64Digit (b1 % 4 * 16 + b2 / 16),
      base64Digit (b2 % 16 * 4), '=']
  | b1 :: b2 :: b3 :: rest =>
      [base64Digit (b1 / 4), base64Digit (b1 % 4 * 16 + b2 / 16),
        base64Digit (b2 % 16 * 4 + b3 / 64), base64Digit (b3 % 64)] ++
        base64Encode rest

/-- The adb invocations `AndroidRobot.sendKeys` can issue, in order. -/
inductive AdbCall where
  | shellInputText (t : String)
  | listPackages
  | clipboardSetBroadcast (b64 : String)
  | keyevent (key : String)
  | clipboardClearBroadcast
deriving DecidableEq, Repr

/-- `AndroidRobot.sendKeys`, parametrized by the installed package list
the devicekit probe would see.  The empty string bails out before any
device command; ASCII text goes through `adb shell input text` with
spaces escaped; non-ASCII text requires the devicekit helper (the probe
itself is a `pm list packages` call) and otherwise fails with an
`ActionableError`. -/
def sendKeys (text : String) (packages : List String) :
    Except Err Unit × List AdbCall :=
  if text = "" then (.ok (), [])
  else if isAscii text then
    (.ok (), [.shellInputText (escapeSpaces text)])
  else if packages.contains "com.mobilenext.devicekit" then
    (.ok (), [.listPackages,
      .clipboardSetBroadcast (List.asString (base64Encode (strUtf8 text))),
      .keyevent "KEYCODE_PASTE", .clipboardClearBroadcast])
  else
    (.error (.actionable "Non-ASCII text is not supported on Android, please install mobilenext devicekit, see https://github.com/mobile-next/devicekit-android"),
      [.listPackages])

/-- C10: `sendKeys` with the empty string returns successfully without
issuing any device command — no shell input, no package-list probe, no
clipboard traffic — for every device state. -/
theorem c10_sendKeys_empty_noop (packages : List String) :
    sendKeys "" packages = (.ok (), []) := by
  rfl
